import Mathlib

/-
Verification of the filter-and-aggregation pipeline of the Airbnb dashboard
(src/Airbnb_Dashboard.py).

The dashboard loads a CSV into a pandas DataFrame, builds sidebar widgets
(multiselects for "neighbourhood group" / "room type" / "country", two
optional single-select dropdowns for "availability_group" / host size, and
three numeric range sliders), then filters the frame by the conjunction of
all constraints and renders per-page aggregates over the filtered frame.

Shallow embedding conventions:
  * a DataFrame row is a `Row`; a cell that may be NaN is an `Option`
    (pandas `isin`, `==`, `>=`, `<=` are all `False` on NaN, which the
    `none` branches reproduce);
  * numeric cells are rationals (pandas float values, NaN excluded via
    `Option`); slider bounds are rationals as well;
  * a DataFrame is a `Table`: its row list plus two flags recording whether
    the optional derived columns "availability_group" and "host_is_big"
    exist in the frame (lines 60-74 of the source test column presence);
  * boolean-mask filtering `df[mask]` is `List.filter` (pandas keeps rows
    in order and never mutates the source);
  * a pandas `KeyError` (access to an absent column) is `Except.error`.
-/

namespace Airbnb

/-- One listing record: the columns the filter pipeline and the verified
aggregates touch.  A `none` models a NaN / missing cell. -/
structure Row where
  neighbourhood_group : Option String
  room_type : Option String
  country : Option String
  price : Option ℚ
  construction_year : Option ℚ
  minimum_nights : Option ℚ
  availability_group : Option String
  host_is_big : Option ℚ
  review_rate_number : Option ℚ
  deriving DecidableEq, Repr

/-- The in-memory DataFrame: row list plus presence flags for the two
optional derived columns (`"availability_group" in df.columns`,
`"host_is_big" in df.columns` at lines 60 and 68 of the source). -/
structure Table where
  rows : List Row
  hasAG : Bool
  hasHB : Bool
  deriving DecidableEq, Repr

/-- The filter specification assembled from the sidebar widgets: the three
multiselect value sets, the three slider ranges, and the raw choices of the
two optional dropdowns ("All" is the sentinel). -/
structure FilterSpec where
  ng : List String
  rt : List String
  co : List String
  price_lo : ℚ
  price_hi : ℚ
  year_lo : ℚ
  year_hi : ℚ
  mn_lo : ℚ
  mn_hi : ℚ
  ag : String
  host_choice : String
  deriving DecidableEq, Repr

/-- pandas `Series.isin(vals)` on one cell: membership for a present value,
`False` for NaN. -/
def isinOpt (vals : List String) : Option String → Bool
  | some v => vals.contains v
  | none => false

/-- pandas `series >= b` on one cell: `False` for NaN. -/
def geOpt (x : Option ℚ) (b : ℚ) : Bool :=
  match x with
  | some v => decide (b ≤ v)
  | none => false

/-- pandas `series <= b` on one cell: `False` for NaN. -/
def leOpt (x : Option ℚ) (b : ℚ) : Bool :=
  match x with
  | some v => decide (v ≤ b)
  | none => false

/-- The boolean mask of source lines 91-101: conjunction of the three
`isin` tests and the three inclusive range tests. -/
def mainMask (s : FilterSpec) (r : Row) : Bool :=
  isinOpt s.ng r.neighbourhood_group &&
  isinOpt s.rt r.room_type &&
  isinOpt s.co r.country &&
  geOpt r.price s.price_lo &&
  leOpt r.price s.price_hi &&
  geOpt r.construction_year s.year_lo &&
  leOpt r.construction_year s.year_hi &&
  geOpt r.minimum_nights s.mn_lo &&
  leOpt r.minimum_nights s.mn_hi

/-- Python / pandas regex test `name matches ^Unnamed`: the column name
starts with "Unnamed" (char-list prefix test, kernel-reducible). -/
def startsUnnamed (name : String) : Bool :=
  "Unnamed".toList.isPrefixOf name.toList

/-- Python `sub in hay` on char lists: some suffix of `hay` starts with
`sub`. -/
def hasSubList (sub : List Char) : List Char → Bool
  | [] => sub.isEmpty
  | c :: rest => sub.isPrefixOf (c :: rest) || hasSubList sub rest

/-- Python substring containment `sub in hay` for strings (used by
`if "Small" in host_type` at line 107 of the source). -/
def strContains (hay sub : String) : Bool :=
  hasSubList sub.toList hay.toList

/-- Source lines 103-104: `if ag != "All": filtered =
filtered[filtered["availability_group"] == ag]`.  Accessing the column when
the frame lacks it is a pandas `KeyError`, modelled as `Except.error`. -/
def applyAGFilter (t : Table) (ag : String) : Except String Table :=
  if ag = "All" then .ok t
  else if t.hasAG then
    .ok { t with rows := t.rows.filter (fun r => decide (r.availability_group = some ag)) }
  else .error "KeyError: availability_group"

/-- Source lines 106-110: the host-size equality filter.  `"Small" in
host_type` picks `host_is_big == 0`, otherwise `host_is_big == 1`. -/
def applyHostFilter (t : Table) (host_choice : String) : Except String Table :=
  if host_choice = "All" then .ok t
  else if t.hasHB then
    if strContains host_choice "Small" then
      .ok { t with rows := t.rows.filter (fun r => decide (r.host_is_big = some 0)) }
    else
      .ok { t with rows := t.rows.filter (fun r => decide (r.host_is_big = some 1)) }
  else .error "KeyError: host_is_big"

/-- Source lines 89-110: copy the frame, apply the conjunction mask, then
the two conditional equality filters in order (an error aborts). -/
def applyFilters (t : Table) (s : FilterSpec) : Except String Table :=
  match applyAGFilter { t with rows := t.rows.filter (mainMask s) } s.ag with
  | .error e => .error e
  | .ok t2 => applyHostFilter t2 s.host_choice

/-- Source lines 60-66: the availability-group dropdown exists only when
the column does; otherwise the choice is forced to the sentinel "All". -/
def dashboardAG (t : Table) (choice : String) : String :=
  if t.hasAG then choice else "All"

/-- Source lines 68-74: the host-type dropdown exists only when the
`host_is_big` column does; otherwise the choice is forced to "All". -/
def dashboardHT (t : Table) (choice : String) : String :=
  if t.hasHB then choice else "All"

/-- The whole pipeline as the program runs it: widget forcing of the two
optional dropdown choices (lines 60-74), then the filter block
(lines 89-110). -/
def runPipeline (t : Table) (s : FilterSpec) : Except String Table :=
  applyFilters t { s with ag := dashboardAG t s.ag, host_choice := dashboardHT t s.host_choice }

/-! To state that each optional equality filter is individually a no-op,
the program is compared against itself with that one filter step deleted
(and everything else, the other optional filter included, unchanged). -/

/-- The filter block of lines 89-110 with the availability-group step
(lines 103-104) deleted. -/
def applyFiltersSkipAG (t : Table) (s : FilterSpec) : Except String Table :=
  applyHostFilter { t with rows := t.rows.filter (mainMask s) } s.host_choice

/-- The whole pipeline with the availability-group filter step deleted. -/
def runPipelineSkipAG (t : Table) (s : FilterSpec) : Except String Table :=
  applyFiltersSkipAG t { s with ag := dashboardAG t s.ag, host_choice := dashboardHT t s.host_choice }

/-- The filter block of lines 89-110 with the host-size step
(lines 106-110) deleted. -/
def applyFiltersSkipHost (t : Table) (s : FilterSpec) : Except String Table :=
  applyAGFilter { t with rows := t.rows.filter (mainMask s) } s.ag

/-- The whole pipeline with the host-size filter step deleted. -/
def runPipelineSkipHost (t : Table) (s : FilterSpec) : Except String Table :=
  applyFiltersSkipHost t { s with ag := dashboardAG t s.ag, host_choice := dashboardHT t s.host_choice }

/-! Spec-side characterisation, written from the specification's words:
each multiselect constraint is an "IN set" membership test, each range is
inclusive on both bounds, and each optional equality constraint applies
exactly when its source column exists and the chosen value is not the
sentinel "All".  A row is kept iff the conjunction of all constraints
holds. -/

/-- Spec wording: the categorical multiselect constraints, each a
membership test of the row's value in the permitted set. -/
def catTest (s : FilterSpec) (r : Row) : Bool :=
  isinOpt s.ng r.neighbourhood_group && isinOpt s.rt r.room_type && isinOpt s.co r.country

/-- Spec wording: inclusive price range. -/
def priceTest (s : FilterSpec) (r : Row) : Bool :=
  geOpt r.price s.price_lo && leOpt r.price s.price_hi

/-- Spec wording: inclusive construction-year range. -/
def yearTest (s : FilterSpec) (r : Row) : Bool :=
  geOpt r.construction_year s.year_lo && leOpt r.construction_year s.year_hi

/-- Spec wording: inclusive minimum-nights range. -/
def mnTest (s : FilterSpec) (r : Row) : Bool :=
  geOpt r.minimum_nights s.mn_lo && leOpt r.minimum_nights s.mn_hi

/-- Spec wording: the two optional equality constraints, applied only when
the source column exists and the chosen value differs from "All". -/
def optTest (hasAG hasHB : Bool) (s : FilterSpec) (r : Row) : Bool :=
  (if hasAG && s.ag ≠ "All" then decide (r.availability_group = some s.ag) else true) &&
  (if hasHB && s.host_choice ≠ "All" then
      (if strContains s.host_choice "Small" then decide (r.host_is_big = some 0)
       else decide (r.host_is_big = some 1))
    else true)

/-- Spec wording: a row satisfies the filter specification iff the
conjunction of all constraints holds. -/
def specSatisfies (hasAG hasHB : Bool) (s : FilterSpec) (r : Row) : Bool :=
  catTest s r && priceTest s r && yearTest s r && mnTest s r && optTest hasAG hasHB s r

/-- Spec wording: the filtered view is exactly the subset of rows
satisfying the conjunction, in source order, with the source's columns. -/
def specFiltered (t : Table) (s : FilterSpec) : Table :=
  { rows := t.rows.filter (specSatisfies t.hasAG t.hasHB s), hasAG := t.hasAG, hasHB := t.hasHB }

/-! The data loader (source lines 24-31).  `pd.read_csv` is abstracted as
the optional parsed content of "Airbnb_Open_Data_Final_features.csv"; on
an absent file it raises `FileNotFoundError` (`Except.error` here).  The
one-time zip extraction of lines 26-28 only provisions this same file and
is outside the model. -/

/-- A raw CSV parse result: the frame's columns in order, each a name
paired with its cells. -/
structure RawTable where
  cols : List (String × List String)
  deriving DecidableEq, Repr

/-- Source line 30: `df.loc[:, ~df.columns.str.contains("^Unnamed")]` —
keep exactly the columns whose name does not match the regex `^Unnamed`
(i.e. does not start with "Unnamed"). -/
def dropUnnamed (t : RawTable) : RawTable :=
  ⟨t.cols.filter (fun c => !(startsUnnamed c.1))⟩

/-- Source lines 24-31, `load_data`: read the CSV if present (else the
`FileNotFoundError` propagates) and drop the index-artifact columns. -/
def load_data (fs : Option RawTable) : Except String RawTable :=
  match fs with
  | none => .error "FileNotFoundError"
  | some df => .ok (dropUnnamed df)

/-! Per-page grouped aggregates.  The pages compute pandas
`df2.groupby(k)[v].mean()` (e.g. source lines 268, 343, 377, 416) and
`df2[k].value_counts()` (e.g. lines 173, 187, 202, 216, 402) over the
filtered frame `df2`.  pandas semantics embedded here: NaN keys form no
group, NaN values are skipped by `mean` (an all-NaN group has mean NaN,
i.e. `none`), `groupby` sorts the group keys (by the comparison `le`
supplied for the key type), and `value_counts` sorts by count
descending. -/

/-- Insertion step of a stable insertion sort by the boolean comparison
`le`. -/
def insertByLe {α : Type} (le : α → α → Bool) (x : α) : List α → List α
  | [] => [x]
  | y :: ys => if le x y then x :: y :: ys else y :: insertByLe le x ys

/-- Stable insertion sort by the boolean comparison `le`. -/
def sortByLe {α : Type} (le : α → α → Bool) : List α → List α
  | [] => []
  | x :: xs => insertByLe le x (sortByLe le xs)

/-- The distinct non-null values of the key column: the group keys of a
pandas `groupby` (NaN never forms a group). -/
def keysOf {α : Type} [DecidableEq α] (key : Row → Option α) (rows : List Row) : List α :=
  (rows.filterMap key).dedup

/-- pandas `rows.groupby(key)[val].mean()`: one entry per distinct
non-null key (sorted by `le`), carrying the mean of the non-null values of
`val` in that group (`none` = NaN when the group has no non-null value). -/
def groupbyMean {α : Type} [DecidableEq α] (le : α → α → Bool)
    (key : Row → Option α) (val : Row → Option ℚ) (rows : List Row) : List (α × Option ℚ) :=
  (sortByLe le (keysOf key rows)).map fun k =>
    let vs := (rows.filter fun r => decide (key r = some k)).filterMap val
    (k, if vs.isEmpty then none else some (vs.sum / (vs.length : ℚ)))

/-- pandas `rows[key].value_counts()`: occurrence count of each distinct
non-null key, sorted by count descending. -/
def valueCounts {α : Type} [DecidableEq α] (key : Row → Option α) (rows : List Row) :
    List (α × Nat) :=
  sortByLe (fun a b => decide (b.2 ≤ a.2))
    ((keysOf key rows).map fun k => (k, (rows.filter fun r => decide (key r = some k)).length))

/-- Boolean string comparison used to order string group keys. -/
def strLe (a b : String) : Bool := decide (a ≤ b)

/-- Key refinement lemma: the pipeline as run (widget forcing plus the
three sequential filter steps) never errors and produces exactly the
single-pass conjunction filter demanded by the specification. -/
theorem runPipeline_ok (t : Table) (s : FilterSpec) :
    runPipeline t s = .ok (specFiltered t s) := by
  obtain ⟨rows, hAG, hHB⟩ := t
  cases hAG <;> cases hHB <;>
    by_cases hag : s.ag = "All" <;> by_cases hht : s.host_choice = "All" <;>
      by_cases hsm : strContains s.host_choice "Small" = true <;>
    simp only [runPipeline, dashboardAG, dashboardHT, applyFilters, applyAGFilter,
      applyHostFilter, specFiltered] <;>
    simp [hag, hht, hsm, List.filter_filter] <;>
    (apply List.filter_congr
     intro r _
     rw [Bool.eq_iff_iff]
     simp [specSatisfies, catTest, priceTest, yearTest, mnTest, optTest, mainMask,
       hag, hht, hsm, Bool.and_eq_true]
     tauto)

/-- Membership is invariant under the insertion step. -/
theorem mem_insertByLe {α : Type} (le : α → α → Bool) (x a : α) (l : List α) :
    a ∈ insertByLe le x l ↔ a = x ∨ a ∈ l := by
  induction l with
  | nil => simp [insertByLe]
  | cons y ys ih =>
      simp only [insertByLe]
      split
      · simp [List.mem_cons]
      · simp only [List.mem_cons, ih]
        tauto

/-- Sorting by any boolean comparison preserves membership. -/
theorem mem_sortByLe {α : Type} (le : α → α → Bool) (a : α) (l : List α) :
    a ∈ sortByLe le l ↔ a ∈ l := by
  induction l with
  | nil => simp [sortByLe]
  | cons x xs ih => simp [sortByLe, mem_insertByLe, ih]

/-- An empty permitted set rejects every cell, present or NaN. -/
theorem isinOpt_nil (x : Option String) : isinOpt [] x = false := by
  cases x <;> rfl

/-- Filtering twice by one predicate equals filtering once. -/
theorem filter_idem {α : Type} (p : α → Bool) (l : List α) :
    (l.filter p).filter p = l.filter p := by
  rw [List.filter_filter]
  exact List.filter_congr fun a _ => Bool.and_self (p a)

/-! Concrete fixtures used by the witnesses: the two-row table of the
specification's worked example (both rows priced 50, room types
"Entire home" and "Private room"), a row with NaN cells, and filter
specifications over them. -/

/-- Worked-example row: an entire home priced exactly 50. -/
def rowEntire : Row :=
  ⟨some "Manhattan", some "Entire home", some "United States",
   some 50, some 2015, some 3, none, none, some 4⟩

/-- Worked-example row: a private room priced exactly 50. -/
def rowPrivate : Row :=
  ⟨some "Manhattan", some "Private room", some "United States",
   some 50, some 2015, some 3, none, none, some 5⟩

/-- A row whose price cell is NaN. -/
def rowNaNPrice : Row :=
  ⟨some "Manhattan", some "Entire home", some "United States",
   none, some 2015, some 3, none, none, some 4⟩

/-- Worked-example table: the two priced-50 rows, no optional derived
columns. -/
def exTable : Table := ⟨[rowEntire, rowPrivate], false, false⟩

/-- Worked-example table extended with the NaN-price row. -/
def exTableNaN : Table := ⟨[rowEntire, rowPrivate, rowNaNPrice], false, false⟩

/-- Worked-example filter specification: price range (50, 50), room type
set containing only "Entire home", everything else permissive. -/
def exSpec : FilterSpec :=
  ⟨["Manhattan"], ["Entire home"], ["United States"],
   50, 50, 2000, 2020, 1, 30, "All", "All"⟩

/-- The default specification the widgets build for `exTableNaN`: every
listed category selected (the option lists are built with
`.dropna().unique()`, source lines 41-57) and the full numeric ranges
(source lines 77-84). -/
def exDefaultSpec : FilterSpec :=
  ⟨["Manhattan"], ["Entire home", "Private room"], ["United States"],
   50, 50, 2015, 2015, 3, 3, "All", "All"⟩

/-- Worked-example specification with the room-type multiselect emptied. -/
def exSpecEmptyRT : FilterSpec :=
  ⟨["Manhattan"], [], ["United States"], 50, 50, 2000, 2020, 1, 30, "All", "All"⟩

/-- C1: for every source table and filter specification, the filter
pipeline returns exactly the subset of rows satisfying the conjunction of
all constraints, each multiselect constraint evaluated as membership of
the row's value in the permitted set (and it does so without error, with
the source's columns, in source order). -/
theorem claim_C1_filter_exact_conjunction (t : Table) (s : FilterSpec) :
    runPipeline t s =
      .ok ⟨t.rows.filter (specSatisfies t.hasAG t.hasHB s), t.hasAG, t.hasHB⟩ :=
  runPipeline_ok t s

/-- C2: the price, construction-year, and minimum-nights range filters are
all inclusive on both bounds: a row whose value in any of the three
range-filtered columns sits at (or within) that filter's selected minimum
or maximum bound, and which passes every remaining constraint, is retained
by the pipeline. -/
theorem claim_C2_range_bounds_inclusive (t : Table) (s : FilterSpec) (r : Row)
    (hmem : r ∈ t.rows)
    (hbp : s.price_lo ≤ s.price_hi)
    (hby : s.year_lo ≤ s.year_hi)
    (hbm : s.mn_lo ≤ s.mn_hi)
    (hp : r.price = some s.price_lo ∨ r.price = some s.price_hi ∨ priceTest s r = true)
    (hy : r.construction_year = some s.year_lo ∨ r.construction_year = some s.year_hi ∨
          yearTest s r = true)
    (hm : r.minimum_nights = some s.mn_lo ∨ r.minimum_nights = some s.mn_hi ∨
          mnTest s r = true)
    (hcat : catTest s r = true)
    (hopt : optTest t.hasAG t.hasHB s r = true) :
    ∃ t2, runPipeline t s = .ok t2 ∧ r ∈ t2.rows := by
  refine ⟨specFiltered t s, runPipeline_ok t s, ?_⟩
  simp only [specFiltered]
  rw [List.mem_filter]
  refine ⟨hmem, ?_⟩
  have hpt : priceTest s r = true := by
    rcases hp with h | h | h
    · simp [priceTest, geOpt, leOpt, h, hbp]
    · simp [priceTest, geOpt, leOpt, h, hbp]
    · exact h
  have hyt : yearTest s r = true := by
    rcases hy with h | h | h
    · simp [yearTest, geOpt, leOpt, h, hby]
    · simp [yearTest, geOpt, leOpt, h, hby]
    · exact h
  have hmt : mnTest s r = true := by
    rcases hm with h | h | h
    · simp [mnTest, geOpt, leOpt, h, hbm]
    · simp [mnTest, geOpt, leOpt, h, hbm]
    · exact h
  simp [specSatisfies, hcat, hyt, hmt, hopt, hpt]

/-- Worked-example specification whose construction-year range has the
example row's year exactly at its minimum bound while the row's price is
strictly inside the price range. -/
def exSpecYearBound : FilterSpec :=
  ⟨["Manhattan"], ["Entire home"], ["United States"],
   0, 100, 2015, 2020, 1, 30, "All", "All"⟩

/-- Witness for C2, twice over.  First the specification's worked example:
price range (50, 50) and room-type set containing only "Entire home" over
the two-row priced-50 table retain exactly the entire-home row, whose
price sits at both bounds.  Second, the same row is retained when instead
its construction year sits at the selected minimum bound and its price is
strictly interior. -/
theorem claim_C2_witness :
    runPipeline exTable exSpec = .ok ⟨[rowEntire], false, false⟩ ∧
    (∃ t2, runPipeline exTable exSpec = .ok t2 ∧ rowEntire ∈ t2.rows) ∧
    rowEntire.construction_year = some exSpecYearBound.year_lo ∧
    (∃ t2, runPipeline exTable exSpecYearBound = .ok t2 ∧ rowEntire ∈ t2.rows) :=
  ⟨by rfl,
   claim_C2_range_bounds_inclusive exTable exSpec rowEntire (by decide) (by decide)
     (by decide) (by decide) (Or.inl (by decide)) (Or.inr (Or.inr (by decide)))
     (Or.inr (Or.inr (by decide))) (by decide) (by decide),
   rfl,
   claim_C2_range_bounds_inclusive exTable exSpecYearBound rowEntire (by decide) (by decide)
     (by decide) (by decide) (Or.inr (Or.inr (by decide))) (Or.inl (by decide))
     (Or.inr (Or.inr (by decide))) (by decide) (by decide)⟩

/-- C3: an empty multiselect for any of the three categorical filters
yields a filtered table with zero rows, regardless of the other filter
settings. -/
theorem claim_C3_empty_multiselect_empty_result (t : Table) (s : FilterSpec)
    (h : s.ng = [] ∨ s.rt = [] ∨ s.co = []) :
    ∃ t2, runPipeline t s = .ok t2 ∧ t2.rows = [] := by
  refine ⟨specFiltered t s, runPipeline_ok t s, ?_⟩
  simp only [specFiltered]
  rw [List.filter_eq_nil_iff]
  intro r _
  rcases h with h | h | h <;>
    simp [specSatisfies, catTest, h, isinOpt_nil]

/-- Witness for C3: emptying the room-type multiselect over the
worked-example table yields zero rows. -/
theorem claim_C3_witness :
    exSpecEmptyRT.rt = [] ∧
    (∃ t2, runPipeline exTable exSpecEmptyRT = .ok t2 ∧ t2.rows = []) :=
  ⟨rfl, claim_C3_empty_multiselect_empty_result exTable exSpecEmptyRT (Or.inr (Or.inl rfl))⟩

/-- C4: the filtered table never has more rows than the source table. -/
theorem claim_C4_row_count_monotone (t : Table) (s : FilterSpec) (t2 : Table)
    (h : runPipeline t s = .ok t2) : t2.rows.length ≤ t.rows.length := by
  rw [runPipeline_ok] at h
  injection h with h
  subst h
  exact List.length_filter_le _ _

/-- Witness for C4 at the worked example. -/
theorem claim_C4_witness :
    runPipeline exTable exSpec = .ok ⟨[rowEntire], false, false⟩ ∧
    (⟨[rowEntire], false, false⟩ : Table).rows.length ≤ exTable.rows.length :=
  ⟨by rfl, claim_C4_row_count_monotone exTable exSpec _ (by rfl)⟩

/-- C5: filtering is idempotent — applying the same specification to the
result of applying it once returns that result unchanged. -/
theorem claim_C5_filter_idempotent (t : Table) (s : FilterSpec) (t2 : Table)
    (h : runPipeline t s = .ok t2) : runPipeline t2 s = .ok t2 := by
  rw [runPipeline_ok] at h
  injection h with h
  subst h
  rw [runPipeline_ok]
  simp only [specFiltered]
  rw [filter_idem]

/-- Witness for C5 at the worked example. -/
theorem claim_C5_witness :
    runPipeline exTable exSpec = .ok ⟨[rowEntire], false, false⟩ ∧
    runPipeline ⟨[rowEntire], false, false⟩ exSpec = .ok ⟨[rowEntire], false, false⟩ :=
  ⟨by rfl, claim_C5_filter_idempotent exTable exSpec _ (by rfl)⟩

/-- C6: filtering is pure — the output keeps the source's column set (the
fixed `Row` schema plus the two optional-column flags) and presents its
rows as a sublist of the source's rows, i.e. in the source's relative
order; the source table itself is a value and is never mutated. -/
theorem claim_C6_filter_pure_frame (t : Table) (s : FilterSpec) (t2 : Table)
    (h : runPipeline t s = .ok t2) :
    t2.hasAG = t.hasAG ∧ t2.hasHB = t.hasHB ∧ t2.rows.Sublist t.rows := by
  rw [runPipeline_ok] at h
  injection h with h
  subst h
  exact ⟨rfl, rfl, List.filter_sublist _⟩

/-- Witness for C6 at the worked example. -/
theorem claim_C6_witness :
    runPipeline exTable exSpec = .ok ⟨[rowEntire], false, false⟩ ∧
    ((⟨[rowEntire], false, false⟩ : Table).hasAG = exTable.hasAG ∧
     (⟨[rowEntire], false, false⟩ : Table).hasHB = exTable.hasHB ∧
     (⟨[rowEntire], false, false⟩ : Table).rows.Sublist exTable.rows) :=
  ⟨by rfl, claim_C6_filter_pure_frame exTable exSpec _ (by rfl)⟩

/-- C7: filtering never fails, and each of the two optional equality
filters is individually a no-op — deleting its step from the pipeline
leaves the result unchanged — whenever its own source column is absent or
its own choice is the sentinel "All", whatever the state of the other
optional filter. -/
theorem claim_C7_each_optional_filter_noop (t : Table) (s : FilterSpec) :
    (runPipeline t s).isOk = true ∧
    ((t.hasAG = false ∨ s.ag = "All") → runPipeline t s = runPipelineSkipAG t s) ∧
    ((t.hasHB = false ∨ s.host_choice = "All") → runPipeline t s = runPipelineSkipHost t s) := by
  refine ⟨by rw [runPipeline_ok]; rfl, fun h1 => ?_, fun h2 => ?_⟩
  · simp only [runPipeline, runPipelineSkipAG, applyFilters, applyFiltersSkipAG,
      dashboardAG, applyAGFilter]
    rcases h1 with h1 | h1 <;> simp [h1]
  · simp only [runPipeline, runPipelineSkipHost, applyFilters, applyFiltersSkipHost,
      dashboardHT, applyHostFilter]
    rcases h2 with h2 | h2 <;>
      cases hx : applyAGFilter { t with rows := t.rows.filter (mainMask _) } _ <;>
        simp [h2, hx]

/-- Full-featured fixture row: a small host (flag 0) with high
availability. -/
def rowSmallHost : Row :=
  ⟨some "Manhattan", some "Entire home", some "United States",
   some 50, some 2015, some 3, some "High", some 0, some 4⟩

/-- Full-featured fixture row: a big host (flag 1) with low
availability. -/
def rowBigHost : Row :=
  ⟨some "Manhattan", some "Entire home", some "United States",
   some 60, some 2016, some 4, some "Low", some 1, some 5⟩

/-- Fixture table carrying both optional derived columns. -/
def exTableFull : Table := ⟨[rowSmallHost, rowBigHost], true, true⟩

/-- Specification with the availability-group choice at the sentinel "All"
while the host-size filter is active, over a table that has both optional
columns. -/
def exSpecHostActive : FilterSpec :=
  ⟨["Manhattan"], ["Entire home"], ["United States"],
   0, 100, 2000, 2020, 1, 30, "All", "Small Hosts (≤3 listings)"⟩

/-- Witness for C7: over the full-featured table, with the
availability-group choice "All" but the host-size filter active, the
pipeline succeeds, the availability-group step is a no-op (deleting it
changes nothing), and the still-active host-size filter keeps exactly the
small-host row. -/
theorem claim_C7_witness :
    exSpecHostActive.ag = "All" ∧
    runPipeline exTableFull exSpecHostActive = runPipelineSkipAG exTableFull exSpecHostActive ∧
    (runPipeline exTableFull exSpecHostActive).isOk = true ∧
    runPipeline exTableFull exSpecHostActive = .ok ⟨[rowSmallHost], true, true⟩ :=
  ⟨rfl,
   (claim_C7_each_optional_filter_noop exTableFull exSpecHostActive).2.1 (Or.inr rfl),
   (claim_C7_each_optional_filter_noop exTableFull exSpecHostActive).1,
   by rfl⟩

/-- C8: every grouped aggregate computed for a page — per-category counts
(`value_counts`) and per-category means (`groupby(...)[...].mean()`) —
carries entries only for categories occurring in at least one row of the
aggregated table; a category with no rows is absent from the aggregate
rather than reported with a default value. -/
theorem claim_C8_aggregates_only_present_categories (α : Type) [DecidableEq α]
    (le : α → α → Bool) (key : Row → Option α) (val : Row → Option ℚ)
    (rows : List Row) (k : α)
    (h : (∃ m, (k, m) ∈ groupbyMean le key val rows) ∨
         (∃ c, (k, c) ∈ valueCounts key rows)) :
    rows.any (fun r => decide (key r = some k)) = true := by
  have hk : k ∈ keysOf key rows := by
    rcases h with ⟨m, hm⟩ | ⟨c, hc⟩
    · simp only [groupbyMean, List.mem_map] at hm
      obtain ⟨k2, hk2, hpair⟩ := hm
      rw [Prod.mk.injEq] at hpair
      obtain ⟨rfl, -⟩ := hpair
      rwa [mem_sortByLe] at hk2
    · simp only [valueCounts, mem_sortByLe, List.mem_map] at hc
      obtain ⟨k2, hk2, hpair⟩ := hc
      rw [Prod.mk.injEq] at hpair
      obtain ⟨rfl, -⟩ := hpair
      exact hk2
  rw [List.any_eq_true]
  rw [keysOf, List.mem_dedup, List.mem_filterMap] at hk
  obtain ⟨r, hr, hkr⟩ := hk
  exact ⟨r, hr, by simp [hkr]⟩

/-- Witness for C8: the room-type counts of the worked-example table have
an entry for "Entire home", and indeed a row with that room type occurs. -/
theorem claim_C8_witness :
    (∃ c, (("Entire home" : String), c) ∈
      valueCounts (fun r => r.room_type) exTable.rows) ∧
    exTable.rows.any (fun r => decide (r.room_type = some "Entire home")) = true :=
  ⟨⟨1, by decide⟩,
   claim_C8_aggregates_only_present_categories String strLe (fun r => r.room_type)
     (fun r => r.price) exTable.rows "Entire home" (Or.inr ⟨1, by decide⟩)⟩

/-- C9: the loader fails with a FileNotFound-class error when the input
file is absent, and otherwise returns the parsed table with every column
whose name starts with "Unnamed" removed and every other column kept. -/
theorem claim_C9_load_data_drops_unnamed :
    load_data none = .error "FileNotFoundError" ∧
    (∀ df : RawTable, load_data (some df) = .ok (dropUnnamed df)) ∧
    (∀ df : RawTable, ∀ c, c ∈ (dropUnnamed df).cols ↔
      (c ∈ df.cols ∧ startsUnnamed c.1 = false)) := by
  refine ⟨rfl, fun df => rfl, fun df c => ?_⟩
  simp only [dropUnnamed, List.mem_filter, Bool.not_eq_true']

/-- C10: a row with a NaN cell in any of the six always-filtered columns
is excluded from the filtered result under every filter specification
(including the default one, whose multiselect option lists are built from
non-null values): NaN satisfies neither the membership test nor either
inclusive range comparison. -/
theorem claim_C10_nan_rows_excluded (t : Table) (s : FilterSpec) (r : Row) (t2 : Table)
    (hnan : r.neighbourhood_group = none ∨ r.room_type = none ∨ r.country = none ∨
            r.price = none ∨ r.construction_year = none ∨ r.minimum_nights = none)
    (h : runPipeline t s = .ok t2) :
    r ∉ t2.rows := by
  rw [runPipeline_ok] at h
  injection h with h
  subst h
  intro hmem
  simp only [specFiltered] at hmem
  obtain ⟨-, hsat⟩ := List.mem_filter.mp hmem
  rcases hnan with h | h | h | h | h | h <;>
    simp [specSatisfies, catTest, priceTest, yearTest, mnTest, isinOpt, geOpt, leOpt, h] at hsat

/-- Witness for C10: under the default specification of the three-row
table (every listed category selected, full numeric ranges), the row whose
price cell is NaN is excluded while both complete rows survive. -/
theorem claim_C10_witness :
    rowNaNPrice.price = none ∧
    runPipeline exTableNaN exDefaultSpec = .ok ⟨[rowEntire, rowPrivate], false, false⟩ ∧
    rowNaNPrice ∉ (⟨[rowEntire, rowPrivate], false, false⟩ : Table).rows :=
  ⟨rfl, by rfl,
   claim_C10_nan_rows_excluded exTableNaN exDefaultSpec rowNaNPrice _ (by decide) (by rfl)⟩

end Airbnb
